import Mathlib

/-!
Verification development for the SLCDriver PCCC core (`src/pycomm3/slc.py`):
tag-address parsing (`parse_tag`), value packing (`writeable_value`), reply
status handling (`request_status` and the read reply path), and the chunked
file-directory read loop (`_read_whole_file_directory`).

Python semantics are embedded shallowly: `re.search` over the seven address
patterns is compiled rule by rule into explicit leftmost-search matchers with
the same greedy/backtracking behaviour; Python scalars that flow through the
tag dictionaries (strings, ints, floats) become `PyScalar` (floats as exact
rationals, which is faithful here because every float operation in the source
on the reachable inputs is exact); byte strings become `List Nat`; raised
exceptions become explicit error values.

Definitions from `const.py` and `bytes_.py` (`PCCC_CT`, `PCCC_DATA_SIZE`,
`Pack`/`Unpack` codecs, `SLC_REPLY_START`, `SUCCESS`) are not part of the
given sources and are modelled from the spec where needed; each such
definition carries a doc comment saying so.
-/

/-- A Python scalar value as stored in the dict returned by `parse_tag`:
a string, an int, or a float.  Floats are modelled as exact rationals; on
every reachable input of the source the float arithmetic used
(`bit_position / 16`, `element_number * 16`, subtraction) is exact, so the
rational semantics coincides with IEEE double semantics there. -/
inductive PyScalar where
  | str (s : String)
  | int (n : Int)
  | rat (q : ℚ)
deriving DecidableEq, Repr

/-- The structured address produced by `parse_tag` (the Python dict, with a
fixed shape; keys that a rule leaves absent or sets to `None` are `none`). -/
structure TagDesc where
  file_type : String
  file_number : PyScalar
  element_number : PyScalar
  sub_element : Option PyScalar := none
  pos_number : Option PyScalar := none
  address_field : Nat
  element_count : Nat
  tag : String
deriving DecidableEq, Repr

/-- Outcome of `parse_tag`: a dict, `None`, or an uncaught exception
(the I/O bit-form branch reads the nonexistent regex group `file_number`,
which raises `IndexError`). -/
inductive ParseResult where
  | ok (t : TagDesc)
  | noMatch
  | raised
deriving DecidableEq, Repr

/-- Numeric value of a digit string, as Python `int()` of a digit-only string. -/
def digitsVal (cs : List Char) : Nat :=
  cs.foldl (fun a c => a * 10 + (c.toNat - 48)) 0

/-- Maximal digit prefix and the remainder (the greedy part of `\d{m,n}`). -/
def takeDigits (s : List Char) : List Char × List Char :=
  (s.takeWhile Char.isDigit, s.dropWhile Char.isDigit)

/-- Uppercase a matched group, as Python `str.upper()` on ASCII. -/
def strUpper (cs : List Char) : String :=
  String.mk (cs.map Char.toUpper)

/-- The opening brace character of a count token. -/
def lbrace : Char := Char.ofNat 123

/-- The closing brace character of a count token. -/
def rbrace : Char := Char.ofNat 125

/-- Leftmost-match search: try the matcher at every start position from the
left, as `re.search` does. -/
def searchList (m : List Char → Option α) : List Char → Option α
  | [] => m []
  | c :: rest =>
    match m (c :: rest) with
    | some r => some r
    | none => searchList m rest

/-- Case-insensitive literal match (`re.IGNORECASE`); the pattern is given
uppercase; returns the actually matched characters and the rest. -/
def matchLitCI : List Char → List Char → Option (List Char × List Char)
  | [], s => some ([], s)
  | _ :: _, [] => none
  | p :: ps, c :: cs =>
    if c.toUpper = p then
      (matchLitCI ps cs).map (fun r => (c :: r.1, r.2))
    else none

/-- First alternative of `A|B|...` that matches, in pattern order. -/
def matchAlts (alts : List (List Char)) (s : List Char) : Option (List Char × List Char) :=
  match alts with
  | [] => none
  | a :: rest =>
    match matchLitCI a s with
    | some r => some r
    | none => matchAlts rest s

/-- The timer/counter named-bit alternation, in the order of the source
pattern `ACC|PRE|EN|DN|TT|CU|CD|DN|OV|UN|UA` (the duplicate `DN` is kept). -/
def ctNames : List (List Char) :=
  [['A','C','C'], ['P','R','E'], ['E','N'], ['D','N'], ['T','T'],
   ['C','U'], ['C','D'], ['D','N'], ['O','V'], ['U','N'], ['U','A']]

/-- Optional `(/(\d{1,2}))?` group: if a slash followed by at least one digit
is present the group matches greedily (at most two digits); returns the
captured digits, the consumed text and the rest. -/
def matchSlashBits (s : List Char) : Option (List Char) × List Char × List Char :=
  match s with
  | '/' :: s1 =>
    let p := takeDigits s1
    if p.1.isEmpty then (none, [], s)
    else
      let b := p.1.take 2
      (some b, '/' :: b, p.1.drop 2 ++ p.2)
  | _ => (none, [], s)

/-- Optional count token `({(\d+)})?`: present exactly when an opening brace
is followed by a nonempty digit run whose next character is the closing
brace (the greedy `\d+` followed by the literal brace).  Returns the token
text, the count, and the rest. -/
def matchCountTok (s : List Char) : Option (List Char) × Option Nat × List Char :=
  match s with
  | b :: s1 =>
    if b = lbrace then
      let p := takeDigits s1
      match p.1, p.2 with
      | [], _ => (none, none, s)
      | _ :: _, rb :: r2 =>
        if rb = rbrace then
          (some ([b] ++ p.1 ++ [rb]), some (digitsVal p.1), r2)
        else (none, none, s)
      | _ :: _, [] => (none, none, s)
    else (none, none, s)
  | [] => (none, none, s)

/-- Optional count token `({(?P<element_count>[12])})?` of the string-file
rule: a brace, a single `1` or `2`, and a closing brace. -/
def matchCountTok12 (s : List Char) : Option (List Char) × Option Nat × List Char :=
  match s with
  | a :: b :: c :: rest =>
    if a = lbrace ∧ (b = '1' ∨ b = '2') ∧ c = rbrace then
      (some [a, b, c], some (if b = '1' then 1 else 2), rest)
    else (none, none, s)
  | _ => (none, none, s)

/-- One regex match: `group(0)` text and the captured groups a rule uses. -/
structure RMatch where
  g0 : List Char
  ftc : List Char
  fd : List Char := []
  ed : List Char := []
  pd : List Char := []
  sub : Option (List Char) := none
  subName : Option (List Char) := none
  cntTok : Option (List Char) := none
  cnt : Option Nat := none
deriving DecidableEq, Repr

/-- Remove every occurrence of a (nonempty) token from a string, as
Python `str.replace(tok, add-nothing)`; fuelled by the string length. -/
def replaceAllF (pat : List Char) : Nat → List Char → List Char
  | _, [] => []
  | 0, s => s
  | fuel + 1, c :: rest =>
    if ¬ pat.isEmpty ∧ (c :: rest).take pat.length = pat then
      replaceAllF pat fuel ((c :: rest).drop pat.length)
    else c :: replaceAllF pat fuel rest

/-- `g0.replace(count_token, nothing)` of the source: the tag name with the
count token stripped (when one was captured). -/
def tagNameStr (m : RMatch) : String :=
  match m.cntTok with
  | some tk => String.mk (replaceAllF tk m.g0.length m.g0)
  | none => String.mk m.g0

/-- Backtracking over the element-number width of the timer/counter rule:
`\d{1,3}` is greedy, but `(.)` and the named-bit alternation that follow can
force a shorter element capture (e.g. `C1:12PRE` captures element `1`). -/
def rule1Elem (c : Char) (fd edR s4 : List Char) : Nat → Option RMatch
  | 0 => none
  | k + 1 =>
    let ed := edR.take (k + 1)
    let rest := edR.drop (k + 1) ++ s4
    match rest with
    | d :: s5 =>
      if d = '\n' then rule1Elem c fd edR s4 k
      else
        match matchAlts ctNames s5 with
        | some nm =>
          some { g0 := c :: (fd ++ [':'] ++ ed ++ [d] ++ nm.1), ftc := [c],
                 fd := fd, ed := ed, subName := some nm.1 }
        | none => rule1Elem c fd edR s4 k
    | [] => rule1Elem c fd edR s4 k

/-- Rule 1 pattern at one start position:
`([CT])(\d{1,3})(:)(\d{1,3})(.)(ACC|PRE|EN|DN|TT|CU|CD|DN|OV|UN|UA)`.
`(.)` matches any character except a newline. -/
def matchRule1At (s : List Char) : Option RMatch :=
  match s with
  | [] => none
  | c :: s1 =>
    if c.toUpper = 'C' ∨ c.toUpper = 'T' then
      let p := takeDigits s1
      if 1 ≤ p.1.length ∧ p.1.length ≤ 3 then
        match p.2 with
        | ':' :: s3 =>
          let q := takeDigits s3
          rule1Elem c p.1 q.1 q.2 (min 3 q.1.length)
        | _ => none
      else none
    else none

/-- Rule 2 pattern at one start position:
`([LFBN])(\d{1,3})(:)(\d{1,3})(/(\d{1,2}))?({(\d+)})?`. -/
def matchRule2At (s : List Char) : Option RMatch :=
  match s with
  | [] => none
  | c :: s1 =>
    if c.toUpper = 'L' ∨ c.toUpper = 'F' ∨ c.toUpper = 'B' ∨ c.toUpper = 'N' then
      let p := takeDigits s1
      if 1 ≤ p.1.length ∧ p.1.length ≤ 3 then
        match p.2 with
        | ':' :: s3 =>
          let q := takeDigits s3
          if q.1.isEmpty then none
          else
            let ed := q.1.take 3
            let rest := q.1.drop 3 ++ q.2
            let sb := matchSlashBits rest
            let ct := matchCountTok sb.2.2
            some { g0 := c :: (p.1 ++ [':'] ++ ed ++ sb.2.1 ++ (ct.1.getD [])),
                   ftc := [c], fd := p.1, ed := ed, sub := sb.1,
                   cntTok := ct.1, cnt := ct.2.1 }
        | _ => none
      else none
    else none

/-- Backtracking over the element-number width of the I/O rule: `(.)` and
the mandatory position digits that follow can force a shorter element
capture. -/
def rule3Elem (c : Char) (edR s4 : List Char) : Nat → Option RMatch
  | 0 => none
  | k + 1 =>
    let ed := edR.take (k + 1)
    let rest := edR.drop (k + 1) ++ s4
    match rest with
    | d :: s5 =>
      if d = '\n' then rule3Elem c edR s4 k
      else
        let p := takeDigits s5
        if p.1.isEmpty then rule3Elem c edR s4 k
        else
          let pd := p.1.take 3
          let rest2 := p.1.drop 3 ++ p.2
          let sb := matchSlashBits rest2
          let ct := matchCountTok sb.2.2
          some { g0 := c :: ':' :: (ed ++ [d] ++ pd ++ sb.2.1 ++ (ct.1.getD [])),
                 ftc := [c], ed := ed, pd := pd, sub := sb.1,
                 cntTok := ct.1, cnt := ct.2.1 }
    | [] => rule3Elem c edR s4 k

/-- Rule 3 pattern at one start position:
`([IO])(:)(\d{1,3})(.)(\d{1,3})(/(\d{1,2}))?({(\d+)})?`. -/
def matchRule3At (s : List Char) : Option RMatch :=
  match s with
  | c :: ':' :: s2 =>
    if c.toUpper = 'I' ∨ c.toUpper = 'O' then
      let q := takeDigits s2
      rule3Elem c q.1 q.2 (min 3 q.1.length)
    else none
  | _ => none

/-- Rule 4 pattern at one start position:
`(ST)(\d{1,3})(:)(\d{1,4})({([12])})?`. -/
def matchRule4At (s : List Char) : Option RMatch :=
  match s with
  | c1 :: c2 :: s2 =>
    if c1.toUpper = 'S' ∧ c2.toUpper = 'T' then
      let p := takeDigits s2
      if 1 ≤ p.1.length ∧ p.1.length ≤ 3 then
        match p.2 with
        | ':' :: s4 =>
          let q := takeDigits s4
          if q.1.isEmpty then none
          else
            let ed := q.1.take 4
            let rest := q.1.drop 4 ++ q.2
            let ct := matchCountTok12 rest
            some { g0 := c1 :: c2 :: (p.1 ++ [':'] ++ ed ++ (ct.1.getD [])),
                   ftc := [c1, c2], fd := p.1, ed := ed,
                   cntTok := ct.1, cnt := ct.2.1 }
        | _ => none
      else none
    else none
  | _ => none

/-- Rule 5 pattern at one start position:
`(A)(\d{1,3})(:)(\d{1,4})({(\d+)})?`. -/
def matchRule5At (s : List Char) : Option RMatch :=
  match s with
  | [] => none
  | c :: s1 =>
    if c.toUpper = 'A' then
      let p := takeDigits s1
      if 1 ≤ p.1.length ∧ p.1.length ≤ 3 then
        match p.2 with
        | ':' :: s3 =>
          let q := takeDigits s3
          if q.1.isEmpty then none
          else
            let ed := q.1.take 4
            let rest := q.1.drop 4 ++ q.2
            let ct := matchCountTok rest
            some { g0 := c :: (p.1 ++ [':'] ++ ed ++ (ct.1.getD [])),
                   ftc := [c], fd := p.1, ed := ed,
                   cntTok := ct.1, cnt := ct.2.1 }
        | _ => none
      else none
    else none

/-- Rule 6 pattern at one start position:
`(S)(:)(\d{1,3})(/(\d{1,2}))?({(\d+)})?`. -/
def matchRule6At (s : List Char) : Option RMatch :=
  match s with
  | c :: ':' :: s2 =>
    if c.toUpper = 'S' then
      let q := takeDigits s2
      if q.1.isEmpty then none
      else
        let ed := q.1.take 3
        let rest := q.1.drop 3 ++ q.2
        let sb := matchSlashBits rest
        let ct := matchCountTok sb.2.2
        some { g0 := c :: ':' :: (ed ++ sb.2.1 ++ (ct.1.getD [])),
               ftc := [c], ed := ed, sub := sb.1,
               cntTok := ct.1, cnt := ct.2.1 }
    else none
  | _ => none

/-- Rule 7 pattern at one start position:
`(B)(\d{1,3})(/)(\d{1,4})({(\d+)})?`. -/
def matchRule7At (s : List Char) : Option RMatch :=
  match s with
  | [] => none
  | c :: s1 =>
    if c.toUpper = 'B' then
      let p := takeDigits s1
      if 1 ≤ p.1.length ∧ p.1.length ≤ 3 then
        match p.2 with
        | '/' :: s3 =>
          let q := takeDigits s3
          if q.1.isEmpty then none
          else
            let ed := q.1.take 4
            let rest := q.1.drop 4 ++ q.2
            let ct := matchCountTok rest
            some { g0 := c :: (p.1 ++ ['/'] ++ ed ++ (ct.1.getD [])),
                   ftc := [c], fd := p.1, ed := ed,
                   cntTok := ct.1, cnt := ct.2.1 }
        | _ => none
      else none
    else none

/-- Modelled from the spec: `const.PCCC_CT` (not in the given sources), the
fixed table from timer/counter named bits to their indices; `PRE` and `ACC`
are the word-valued markers the codec compares against, the rest are bit
positions. -/
def PCCC_CT (name : String) : Nat :=
  if name = "PRE" then 1
  else if name = "ACC" then 2
  else if name = "EN" then 15
  else if name = "TT" then 14
  else if name = "DN" then 13
  else if name = "CU" then 15
  else if name = "CD" then 14
  else if name = "OV" then 12
  else if name = "UN" then 11
  else if name = "UA" then 10
  else 0

/-- Timer/counter named-bit rule with its bounds check (file 1..255,
element 0..255); a match that fails the bounds falls through to later rules. -/
def applyRule1 (s : List Char) : Option TagDesc := do
  let m ← searchList matchRule1At s
  let fn := digitsVal m.fd
  let en := digitsVal m.ed
  if 1 ≤ fn ∧ fn ≤ 255 ∧ en ≤ 255 then
    some { file_type := strUpper m.ftc,
           file_number := PyScalar.str (String.mk m.fd),
           element_number := PyScalar.str (String.mk m.ed),
           sub_element := some (PyScalar.int (PCCC_CT (strUpper (m.subName.getD [])))),
           address_field := 3, element_count := 1,
           tag := String.mk m.g0 }
  else none

/-- Word-file rule (`L`/`F`/`B`/`N`) with its two branches (bit form and word
form) and their bounds checks. -/
def applyRule2 (s : List Char) : Option TagDesc := do
  let m ← searchList matchRule2At s
  let fn := digitsVal m.fd
  let en := digitsVal m.ed
  match m.sub with
  | some sb =>
    if 1 ≤ fn ∧ fn ≤ 255 ∧ en ≤ 255 ∧ digitsVal sb ≤ 15 then
      some { file_type := strUpper m.ftc,
             file_number := PyScalar.str (String.mk m.fd),
             element_number := PyScalar.str (String.mk m.ed),
             sub_element := some (PyScalar.str (String.mk sb)),
             address_field := 3, element_count := m.cnt.getD 1,
             tag := tagNameStr m }
    else none
  | none =>
    if 1 ≤ fn ∧ fn ≤ 255 ∧ en ≤ 255 then
      some { file_type := strUpper m.ftc,
             file_number := PyScalar.str (String.mk m.fd),
             element_number := PyScalar.str (String.mk m.ed),
             sub_element := none,
             address_field := 2, element_count := m.cnt.getD 1,
             tag := tagNameStr m }
    else none

/-- I/O rule.  Its bit-form branch reads the regex group `file_number`,
which this pattern does not define: in the source that raises an uncaught
`IndexError`, modelled as `ParseResult.raised`. -/
def applyRule3 (s : List Char) : Option ParseResult := do
  let m ← searchList matchRule3At s
  match m.sub with
  | some _ => some ParseResult.raised
  | none =>
    if digitsVal m.ed ≤ 255 then
      some (ParseResult.ok
        { file_type := strUpper m.ftc,
          file_number := PyScalar.str ("0"),
          element_number := PyScalar.str (String.mk m.ed),
          sub_element := none,
          pos_number := some (PyScalar.str (String.mk m.pd)),
          address_field := 2, element_count := m.cnt.getD 1,
          tag := tagNameStr m })
    else none

/-- String-file rule (`ST`); element number is stored as an int here. -/
def applyRule4 (s : List Char) : Option TagDesc := do
  let m ← searchList matchRule4At s
  let fn := digitsVal m.fd
  let en := digitsVal m.ed
  if 1 ≤ fn ∧ fn ≤ 255 ∧ en ≤ 255 then
    some { file_type := strUpper m.ftc,
           file_number := PyScalar.str (String.mk m.fd),
           element_number := PyScalar.int en,
           address_field := 2, element_count := m.cnt.getD 1,
           tag := tagNameStr m }
  else none

/-- ASCII-file rule (`A`); element number is stored as an int here. -/
def applyRule5 (s : List Char) : Option TagDesc := do
  let m ← searchList matchRule5At s
  let fn := digitsVal m.fd
  let en := digitsVal m.ed
  if 1 ≤ fn ∧ fn ≤ 255 ∧ en ≤ 255 then
    some { file_type := strUpper m.ftc,
           file_number := PyScalar.str (String.mk m.fd),
           element_number := PyScalar.int en,
           address_field := 2, element_count := m.cnt.getD 1,
           tag := tagNameStr m }
  else none

/-- Status-file rule (`S`), file number fixed to 2.  Note the source's bit
branch returns `t.group(0)` as the tag (the count token is NOT stripped
there), while the word branch returns the stripped `tag_name`. -/
def applyRule6 (s : List Char) : Option TagDesc := do
  let m ← searchList matchRule6At s
  let en := digitsVal m.ed
  match m.sub with
  | some sb =>
    if en ≤ 255 ∧ digitsVal sb ≤ 15 then
      some { file_type := strUpper m.ftc,
             file_number := PyScalar.str ("2"),
             element_number := PyScalar.str (String.mk m.ed),
             sub_element := some (PyScalar.str (String.mk sb)),
             address_field := 3, element_count := m.cnt.getD 1,
             tag := String.mk m.g0 }
    else none
  | none =>
    if en ≤ 255 then
      some { file_type := strUpper m.ftc,
             file_number := PyScalar.str ("2"),
             element_number := PyScalar.str (String.mk m.ed),
             address_field := 2, element_count := m.cnt.getD 1,
             tag := tagNameStr m }
    else none

/-- Python float true division `n / 16`, which is exact for the bit offsets
in range (denominator a power of two, well within double precision).  It is
computed with `mkRat` so that concrete evaluations reduce (the field
operations on `ℚ` are irreducible); `mkRat n 16 = (n : ℚ) / 16`. -/
def pyDiv16 (n : Nat) : ℚ := mkRat n 16

/-- Python float computation `n - q * 16`, again exact over the rationals:
`(n * den - num * 16) / den`. -/
def pySubMul16 (n : Nat) (q : ℚ) : ℚ :=
  mkRat ((n : Int) * (q.den : Int) - q.num * 16) q.den

/-- Binary-file absolute-bit rule (`B<file>/<bitoffset>`).  The source
computes `element_number = bit_position / 16` with Python float true
division and `sub_element = bit_position - element_number * 16`; both are
reproduced exactly over the rationals. -/
def applyRule7 (s : List Char) : Option TagDesc := do
  let m ← searchList matchRule7At s
  let fn := digitsVal m.fd
  let en := digitsVal m.ed
  if 1 ≤ fn ∧ fn ≤ 255 ∧ en ≤ 4095 then
    let elem : ℚ := pyDiv16 en
    some { file_type := strUpper m.ftc,
           file_number := PyScalar.str (String.mk m.fd),
           element_number := PyScalar.rat elem,
           sub_element := some (PyScalar.rat (pySubMul16 en elem)),
           address_field := 3, element_count := m.cnt.getD 1,
           tag := tagNameStr m }
  else none

/-- `parse_tag` of the source: the seven rules in order; the first rule
whose leftmost match also passes its bounds wins, a bounds failure falls
through to the next rule, and no rule at all gives `None`. -/
def parse_tag (s : String) : ParseResult :=
  let cs := s.toList
  match applyRule1 cs with
  | some t => ParseResult.ok t
  | none =>
    match applyRule2 cs with
    | some t => ParseResult.ok t
    | none =>
      match applyRule3 cs with
      | some r => r
      | none =>
        match applyRule4 cs with
        | some t => ParseResult.ok t
        | none =>
          match applyRule5 cs with
          | some t => ParseResult.ok t
          | none =>
            match applyRule6 cs with
            | some t => ParseResult.ok t
            | none =>
              match applyRule7 cs with
              | some t => ParseResult.ok t
              | none => ParseResult.noMatch

/-! ## Values, packing, and `writeable_value` -/

/-- A Python value supplied to `write` (the slice of Python values the codec
paths distinguish): an int (Python `bool` is a subtype of `int` with
`True = 1`, `False = 0`, so it is covered), a `bytes` object, or a list of
ints. -/
inductive PyValue where
  | int (n : Int)
  | bytes (bs : List Nat)
  | list (vs : List Int)
deriving DecidableEq, Repr

/-- Errors escaping `writeable_value`: a `RequestError` with its message, or
an exception raised outside the `try` block (`TypeError`/`ValueError`),
which propagates uncaught. -/
inductive PyErr where
  | requestError (msg : String)
  | uncaughtError
deriving DecidableEq, Repr

/-- Structural decidable equality for `Except`, so that concrete codec
outcomes can be evaluated by `decide`. -/
instance {ε α : Type} [DecidableEq ε] [DecidableEq α] :
    DecidableEq (Except ε α) := fun x y =>
  match x, y with
  | Except.ok a, Except.ok b =>
    if h : a = b then isTrue (by rw [h])
    else isFalse (fun hh => h (Except.ok.inj hh))
  | Except.error a, Except.error b =>
    if h : a = b then isTrue (by rw [h])
    else isFalse (fun hh => h (Except.error.inj hh))
  | Except.ok _, Except.error _ => isFalse (fun hh => Except.noConfusion hh)
  | Except.error _, Except.ok _ => isFalse (fun hh => Except.noConfusion hh)

/-- A value carried by a read result `Tag`. -/
inductive TagValue where
  | int (n : Int)
  | bool (b : Bool)
  | list (ns : List Int)
deriving DecidableEq, Repr

/-- The `Tag` result namedtuple: `(tag, value, type, error)`. -/
structure Tag where
  tag : String
  value : Option TagValue
  type : String
  error : Option String
deriving DecidableEq, Repr

/-- Python truthiness of the scalars that can sit in a tag dict. -/
def pyTruthy : PyScalar → Bool
  | PyScalar.str s => ¬ s.isEmpty
  | PyScalar.int n => n ≠ 0
  | PyScalar.rat q => q ≠ 0

/-- Python `int()` of a digit string (the only strings `parse_tag` stores);
`none` models the `ValueError` on a malformed string. -/
def strToInt (s : String) : Option Int :=
  let cs := s.toList
  if ¬ cs.isEmpty ∧ cs.all Char.isDigit then some (digitsVal cs) else none

/-- Python `int()` truncates a float toward zero. -/
def ratTrunc (q : ℚ) : Int := q.num.tdiv q.den

/-- Python `int(x)` on a tag-dict scalar. -/
def pyToInt : PyScalar → Option Int
  | PyScalar.str s => strToInt s
  | PyScalar.int n => some n
  | PyScalar.rat q => some (ratTrunc q)

/-- Python `int(x or 0)` on an optional tag-dict entry: an absent key or a
falsy value gives `0`, a truthy value is converted with `int()`. -/
def pyIntOr0 (s : Option PyScalar) : Option Int :=
  match s with
  | none => some 0
  | some v => if pyTruthy v then pyToInt v else some 0

/-- `int(tag.get('sub_element') or 0) if bit_field else 0` of the source
(`bit_field` is `address_field == 3`). -/
def bitPositionOf (t : TagDesc) : Option Int :=
  if t.address_field = 3 then pyIntOr0 t.sub_element else some 0

/-- `tag.get('element_count') or 1` of the source (a zero count is falsy). -/
def elementCountOf (t : TagDesc) : Nat :=
  if t.element_count = 0 then 1 else t.element_count

/-- The file types for which the `Pack`/`Unpack` tables define a
`pccc_<type>` codec; a lookup with any other key raises `KeyError` inside
the `try` block.  Modelled from the spec (`bytes_.py` is not in the given
sources): every file type of the addressing grammar has a codec. -/
def knownFileTypes : List String :=
  ["N", "B", "T", "C", "S", "A", "I", "O", "L", "F", "ST"]

/-- Two-byte little-endian encoding of a value already reduced mod 2^16. -/
def le2 (m : Nat) : List Nat := [m % 256, m / 256]

/-- Modelled from the spec: the per-type `Pack.pccc_*` functions
(`bytes_.py` is not in the given sources) — word types pack as 2-byte
little-endian signed integers, `L` as 4-byte little-endian signed; floats
and strings are outside the modelled value domain and packing any
non-scalar fails, all failures standing for the packing exceptions the
source catches. -/
def pccc_pack (ft : String) (v : PyValue) : Option (List Nat) :=
  match v with
  | PyValue.int n =>
    if ft = "L" then
      if -(2 ^ 31) ≤ n ∧ n < 2 ^ 31 then
        let m := (n % (2 ^ 32 : Int)).toNat
        some [m % 256, m / 256 % 256, m / 65536 % 256, m / 16777216]
      else none
    else if ft = "N" ∨ ft = "B" ∨ ft = "T" ∨ ft = "C" ∨ ft = "S" ∨ ft = "A"
        ∨ ft = "I" ∨ ft = "O" then
      if -32768 ≤ n ∧ n < 32768 then some (le2 ((n % (65536 : Int)).toNat))
      else none
    else none
  | _ => none

/-- `join(pack_func(val) for val in value)`: each element packed
independently and concatenated; any failure fails the whole join. -/
def packJoin (ft : String) (vs : List Int) : Option (List Nat) :=
  (vs.mapM (fun n => pccc_pack ft (PyValue.int n))).map List.flatten

/-- Modelled from the spec: `Pack.usint`, one unsigned byte. -/
def Pack_usint (n : Nat) : Option (List Nat) :=
  if n < 256 then some [n] else none

/-- Modelled from the spec: `Pack.uint`, 2-byte little-endian unsigned. -/
def Pack_uint (n : Nat) : Option (List Nat) :=
  if n < 65536 then some (le2 n) else none

/-- Modelled from the spec: `Pack.uint` applied to the float produced by
`math.pow` — accepted when the value is a nonnegative integer below 2^16
(the mask emission the spec requires), failing otherwise. -/
def Pack_uint_q (q : ℚ) : Option (List Nat) :=
  if q.den = 1 ∧ 0 ≤ q.num ∧ q.num < 65536 then some (le2 q.num.toNat)
  else none

/-- `math.pow(2, e)`: exact for the exponents that occur (|e| ≤ 15);
computed with `mkRat` so that concrete evaluations reduce. -/
def math_pow2 (e : Int) : ℚ :=
  if 0 ≤ e then mkRat ((2 : Int) ^ e.toNat) 1 else mkRat 1 (2 ^ (-e).toNat)

/-- The `RequestError` message of the source's packing `except` clause
(the offending value's repr is omitted from the modelled message). -/
def packFailMsg (t : TagDesc) : String :=
  "Failed to create a writeable value for " ++ t.tag

/-- `value > 0` of the source's bit-set test; comparing a list with an int
raises `TypeError` (inside the `try`, hence `none` here is caught). -/
def pyGtZero : PyValue → Option Bool
  | PyValue.int n => some (decide (0 < n))
  | _ => none

/-- `writeable_value` on a non-`bytes` value (the body after the
`isinstance` early return), mirroring the source statement for statement:
bit position and element count are computed outside the `try` block, the
length checks and truncation precede it, and everything from the pack-table
lookup on is inside it (any exception there becomes a `RequestError`). -/
def writeable_value_rest (t : TagDesc) (v : PyValue) : Except PyErr (List Nat) :=
  match bitPositionOf t with
  | none => Except.error PyErr.uncaughtError
  | some bp =>
    let ec := elementCountOf t
    if 1 < ec then
      match v with
      | PyValue.list vs =>
        if vs.length < ec then
          Except.error (PyErr.requestError
            ("Insufficient data for requested elements, expected "
              ++ toString ec ++ " and got " ++ toString vs.length))
        else
          let vs' := if ec < vs.length then vs.take ec else vs
          match packJoin t.file_type vs' with
          | some bs => Except.ok bs
          | none => Except.error (PyErr.requestError (packFailMsg t))
      | _ => Except.error PyErr.uncaughtError
    else
      if t.file_type ∈ knownFileTypes then
        if t.address_field = 3 then
          if (t.file_type = "T" ∨ t.file_type = "C")
              ∧ (bp = ((PCCC_CT ("PRE") : Nat) : Int)
                 ∨ bp = ((PCCC_CT ("ACC") : Nat) : Int)) then
            match pccc_pack t.file_type v with
            | some bs => Except.ok (255 :: 255 :: bs)
            | none => Except.error (PyErr.requestError (packFailMsg t))
          else
            match pyGtZero v with
            | none => Except.error (PyErr.requestError (packFailMsg t))
            | some b =>
              match Pack_uint_q (math_pow2 bp),
                  (if b then Pack_uint_q (math_pow2 bp) else Pack_uint_q 0) with
              | some m, some w => Except.ok (m ++ w)
              | _, _ => Except.error (PyErr.requestError (packFailMsg t))
        else
          match pccc_pack t.file_type v with
          | some bs => Except.ok bs
          | none => Except.error (PyErr.requestError (packFailMsg t))
      else Except.error (PyErr.requestError (packFailMsg t))

/-- `writeable_value` of the source: a `bytes` value is returned unchanged
before anything else runs. -/
def writeable_value (t : TagDesc) (v : PyValue) : Except PyErr (List Nat) :=
  match v with
  | PyValue.bytes bs => Except.ok bs
  | v => writeable_value_rest t v

/-! ## Reply status and the read reply path -/

/-- From `const.py` (not in the given sources): a zero status byte means
success. -/
def SUCCESS : Nat := 0

/-- From `const.py` (not in the given sources): the reply payload starts at
byte 61, per the spec's fixed payload offset. -/
def SLC_REPLY_START : Nat := 61

/-- `request_status` of the source, parametrised by the
`PCCC_ERROR_CODE` table (from `const.py`, not in the given sources): the
status byte is read at offset 58; a missing byte (`IndexError`) or an
unknown code gives the generic message. -/
def request_status (table : Nat → Option String) (data : List Nat) : Option String :=
  match data[58]? with
  | none => some ("Unknown Status")
  | some b => if b = SUCCESS then none else some ((table b).getD ("Unknown Status"))

/-- Modelled from the spec: `const.PCCC_DATA_TYPE` sizes — word types two
bytes, `L` and `F` four. -/
def PCCC_DATA_SIZE (ft : String) : Option Nat :=
  if ft = "L" ∨ ft = "F" then some 4
  else if ft ∈ knownFileTypes then some 2
  else none

/-- Modelled from the spec: the per-type `Unpack.pccc_*` functions — word
types decode 2-byte little-endian signed, `L` 4-byte signed; a slice of the
wrong width raises (float and string decoding are outside the modelled
domain). -/
def pccc_unpack (ft : String) (bs : List Nat) : Option Int :=
  if ft = "L" then
    match bs with
    | [a, b, c, d] =>
      let v := a + 256 * b + 65536 * c + 16777216 * d
      some (if v < 2 ^ 31 then (v : Int) else (v : Int) - 2 ^ 32)
    | _ => none
  else if ft = "N" ∨ ft = "B" ∨ ft = "T" ∨ ft = "C" ∨ ft = "S" ∨ ft = "A"
      ∨ ft = "I" ∨ ft = "O" then
    match bs with
    | [a, b] =>
      let v := a + 256 * b
      some (if v < 32768 then (v : Int) else (v : Int) - 65536)
    | _ => none
  else none

/-- `get_bit` of the source, `(value & (1 << idx)) != 0`, written with the
floor division that equals Python's arithmetic right shift. -/
def get_bit (value : Int) (idx : Nat) : Bool :=
  (value.ediv (2 ^ idx)).emod 2 = 1

/-- The word-read loop `[unpack_func(data[i:i+size]) for i in range(0, len(data), size)]`,
fuelled by the data length (each step consumes at least one byte). -/
def unpackChunksF (ft : String) (ds : Nat) : Nat → List Nat → Option (List Int)
  | _, [] => some []
  | 0, _ :: _ => none
  | fuel + 1, c :: rest =>
    match pccc_unpack ft ((c :: rest).take ds) with
    | none => none
    | some v => (unpackChunksF ft ds fuel ((c :: rest).drop ds)).map (v :: ·)

/-- All data chunks of one reply, decoded in order. -/
def unpackChunks (ft : String) (ds : Nat) (data : List Nat) : Option (List Int) :=
  unpackChunksF ft ds data.length data

/-- `_parse_read_reply` of the source: everything is inside one `try` whose
failure raises `DataError('Failed parsing tag read reply')` — here `none`
collapsed to that error.  For timer/counter `PRE`/`ACC` the word at
sub-offset 2 resp. 4 is decoded; any other bit read decodes the first word
and extracts the bit; a word read decodes all chunks and returns a scalar
for one value, else the list (an empty payload raises on `values_list[0]`). -/
def parse_read_reply (t : TagDesc) (data : List Nat) : Except String Tag :=
  let r : Option Tag := do
    let bp ← pyIntOr0 t.sub_element
    let ds ← PCCC_DATA_SIZE t.file_type
    if t.address_field = 3 then
      if (t.file_type = "T" ∨ t.file_type = "C")
          ∧ bp = ((PCCC_CT ("PRE") : Nat) : Int) then
        let v ← pccc_unpack t.file_type ((data.drop 2).take ds)
        pure { tag := t.tag, value := some (TagValue.int v), type := t.file_type, error := none }
      else if (t.file_type = "T" ∨ t.file_type = "C")
          ∧ bp = ((PCCC_CT ("ACC") : Nat) : Int) then
        let v ← pccc_unpack t.file_type ((data.drop 4).take ds)
        pure { tag := t.tag, value := some (TagValue.int v), type := t.file_type, error := none }
      else
        let v ← pccc_unpack t.file_type (data.take ds)
        if 0 ≤ bp then
          pure { tag := t.tag, value := some (TagValue.bool (get_bit v bp.toNat)),
                 type := t.file_type, error := none }
        else none
    else
      let vals ← unpackChunks t.file_type ds data
      match vals with
      | [] => none
      | [v] => pure { tag := t.tag, value := some (TagValue.int v), type := t.file_type, error := none }
      | vs => pure { tag := t.tag, value := some (TagValue.list vs), type := t.file_type, error := none }
  match r with
  | some tg => Except.ok tg
  | none => Except.error ("Failed parsing tag read reply")

/-- The reply half of `_read_tag`: a non-`None` status yields a failed
`Tag` carrying the status message; otherwise the payload from
`SLC_REPLY_START` on is parsed, a parse failure again yielding a failed
`Tag` (no exception crosses this boundary). -/
def read_tag_reply (table : Nat → Option String) (t : TagDesc) (raw : List Nat) : Tag :=
  match request_status table raw with
  | some status => { tag := t.tag, value := none, type := t.file_type, error := some status }
  | none =>
    match parse_read_reply t (raw.drop SLC_REPLY_START) with
    | Except.ok tg => tg
    | Except.error e => { tag := t.tag, value := none, type := t.file_type, error := some e }

/-! ## Directory read loop and offset encoding -/

/-- The offset field of a directory-chunk request (source line
`[b'\x00', Pack.usint(offset)] if offset < 256 else [b'\xFF', Pack.uint(offset)]`). -/
def encodeOffset (off : Nat) : Option (List Nat) :=
  if off < 256 then (Pack_usint off).map (fun bs => 0 :: bs)
  else (Pack_uint off).map (fun bs => 255 :: bs)

/-- The `while` loop of `_read_whole_file_directory`, abstracted over the
transport: `replyLen offset size` is the byte length of the successful
reply payload for one chunk request.  Returns the list of
`(offset, requested size)` pairs, one per issued request; the source loop
need not terminate (a transport forever returning empty replies), hence
the fuel, exhaustion giving `none`. -/
def dirChunkLoop (replyLen : Nat → Nat → Nat) : Nat → Nat → Nat → Nat → Option (List (Nat × Nat))
  | 0, _, _, _ => none
  | fuel + 1, got, offset, size =>
    if got < size then
      let sz := if 0x50 < size - got then 0x50 else size - got
      let n := replyLen offset sz
      (dirChunkLoop replyLen fuel (got + n) (offset + n / 2) size).map
        (fun rest => (offset, sz) :: rest)
    else some []

/-- A transport that returns every requested chunk in full. -/
def fullReply : Nat → Nat → Nat := fun _ sz => sz

/-! ## Concrete fixtures -/

/-- The parse of `B3:0/2` (word-file rule, bit form): a plain bit write to
bit 2 of a binary-file word. -/
def tagB302 : TagDesc :=
  { file_type := "B", file_number := PyScalar.str ("3"),
    element_number := PyScalar.str ("0"), sub_element := some (PyScalar.str ("2")),
    address_field := 3, element_count := 1, tag := "B3:0/2" }

/-- The parse of a three-word integer-file address (count token stripped). -/
def tagN70x3 : TagDesc :=
  { file_type := "N", file_number := PyScalar.str ("7"),
    element_number := PyScalar.str ("0"), sub_element := none,
    address_field := 2, element_count := 3, tag := "N7:0" }

/-- The parse of `N7:0`, a single-word read address. -/
def tagN70 : TagDesc :=
  { file_type := "N", file_number := PyScalar.str ("7"),
    element_number := PyScalar.str ("0"), sub_element := none,
    address_field := 2, element_count := 1, tag := "N7:0" }

/-- A one-entry error-code table for concrete status evaluations. -/
def tbl16 : Nat → Option String :=
  fun b => if b = 16 then some ("Illegal command or format") else none

/-- A 59-byte reply whose status byte (offset 58) is 16. -/
def buf16 : List Nat := List.replicate 58 0 ++ [16]

/-! ## Claim theorems -/

/-- Claim C1 (code bug): on `B3/20` the source computes
`element_number = 20 / 16` by float true division, yielding the float
`1.25` (here the exact rational `5/4`), and
`sub_element = 20 - 1.25 * 16 = 0.0`, not the claimed integer quotient `1`
and remainder `4`. -/
theorem c1_bfile_float_division :
    parse_tag ("B3/20") = ParseResult.ok
      { file_type := "B", file_number := PyScalar.str ("3"),
        element_number := PyScalar.rat (mkRat 5 4),
        sub_element := some (PyScalar.rat 0),
        address_field := 3, element_count := 1, tag := "B3/20" }
    ∧ (mkRat 5 4 : ℚ) = 5 / 4 := by
  constructor
  · decide
  · rw [Rat.mkRat_eq_div]; norm_num

/-- Claim C2 (corrected): for a 130-byte directory with the 0x50 cap and a
transport returning every chunk in full, the loop issues exactly two chunk
requests, 80 bytes at word offset 0 and 50 bytes at word offset 40 (each
successful chunk advances the offset by half its byte length), and stops
once 130 bytes have accumulated. -/
theorem c2_chunk_requests :
    dirChunkLoop fullReply 130 0 0 130 = some [(0, 0x50), (40, 50)] := by decide

/-- Claim C2 counterexample: the run issues two chunk requests, not the
claimed three. -/
theorem c2_counterexample :
    (dirChunkLoop fullReply 130 0 0 130).map List.length = some 2 ∧
    (dirChunkLoop fullReply 130 0 0 130).map List.length ≠ some 3 := by
  constructor
  · decide
  · decide

/-- Claim C5 (code bug): the status-file bit form keeps the count token in
the returned `tag` (`t.group(0)` is returned while the stripped `tag_name`
is computed but unused), so `S:1/5` with a count of three echoes the
unstripped address. -/
theorem c5_sfile_bit_count_not_stripped :
    parse_tag ("S:1/5\x7b3\x7d") = ParseResult.ok
      { file_type := "S", file_number := PyScalar.str ("2"),
        element_number := PyScalar.str ("1"), sub_element := some (PyScalar.str ("5")),
        address_field := 3, element_count := 3, tag := "S:1/5\x7b3\x7d" } := by decide

/-- Claim C6: directory-chunk offsets below 256 are encoded as a zero
marker byte and a single offset byte; offsets from 256 up are a 0xFF
marker byte and the offset as two little-endian bytes. -/
theorem c6_offset_encoding (off : Nat) (h : off < 65536) :
    encodeOffset off =
      some (if off < 256 then [0, off] else [255, off % 256, off / 256]) := by
  by_cases hlt : off < 256 <;>
    simp [encodeOffset, Pack_usint, Pack_uint, le2, hlt, h]

/-- Claim C6 witness: offset 300 is encoded with the 0xFF marker and the
little-endian pair 44, 1. -/
theorem c6_offset_encoding_witness : encodeOffset 300 = some [255, 44, 1] :=
  (c6_offset_encoding 300 (by decide)).trans (by decide)

/-- Claim C8: a reply shorter than 59 bytes has no status byte at offset
58; `request_status` returns the generic failure message, never success. -/
theorem c8_truncated_reply (table : Nat → Option String) (data : List Nat)
    (h : data.length < 59) :
    request_status table data = some ("Unknown Status") := by
  have h58 : data[58]? = none := by
    rw [List.getElem?_eq_none]
    omega
  simp [request_status, h58]

/-- Claim C8 witness: the empty reply maps to the generic failure message. -/
theorem c8_truncated_reply_witness :
    request_status (fun _ => none) [] = some ("Unknown Status") :=
  c8_truncated_reply (fun _ => none) [] (by decide)

/-- Claim C4: the reply status is the byte at offset 58 — zero is success
(`request_status` returns `None`), any other value maps through the error
table with the generic default for unknown codes, and for a read the
failure comes back as a failed `Tag` carrying that message, not as an
exception. -/
theorem c4_status_offset_and_failed_tag (table : Nat → Option String)
    (t : TagDesc) (data : List Nat) :
    (request_status table data = none ↔ data[58]? = some SUCCESS) ∧
    (∀ b, data[58]? = some b → b ≠ SUCCESS →
      request_status table data = some ((table b).getD ("Unknown Status"))) ∧
    (∀ msg, request_status table data = some msg →
      read_tag_reply table t data =
        { tag := t.tag, value := none, type := t.file_type, error := some msg }) := by
  refine ⟨?_, ?_, ?_⟩
  · cases h : data[58]? with
    | none => simp [request_status, h]
    | some b => by_cases hb : b = SUCCESS <;> simp [request_status, h, hb]
  · intro b hb hne
    simp [request_status, hb, hne]
  · intro msg hmsg
    simp [read_tag_reply, hmsg]

/-- Claim C4 witness: a 59-byte reply with status byte 16 produces a failed
`Tag` carrying the table's message for code 16. -/
theorem c4_status_witness :
    read_tag_reply tbl16 tagN70 buf16 =
      { tag := "N7:0", value := none, type := "N",
        error := some ("Illegal command or format") } :=
  (c4_status_offset_and_failed_tag tbl16 tagN70 buf16).2.2
    ("Illegal command or format") (by decide)

/-- Claim C7: a multi-element write demands a sequence of at least
`element_count` values — a shorter one raises the insufficient-data request
error before any packing, a longer one is truncated, and the kept elements
are packed independently and concatenated. -/
theorem c7_multi_element_write (t : TagDesc) (vs : List Int)
    (hec : 1 < t.element_count) (hbp : (bitPositionOf t).isSome) :
    (vs.length < t.element_count →
      writeable_value t (PyValue.list vs) =
        Except.error (PyErr.requestError
          ("Insufficient data for requested elements, expected "
            ++ toString t.element_count ++ " and got " ++ toString vs.length))) ∧
    (t.element_count ≤ vs.length →
      writeable_value t (PyValue.list vs) =
        match packJoin t.file_type (vs.take t.element_count) with
        | some bs => Except.ok bs
        | none => Except.error (PyErr.requestError (packFailMsg t))) := by
  obtain ⟨bp, hbp⟩ := Option.isSome_iff_exists.mp hbp
  have hecOf : elementCountOf t = t.element_count := by
    unfold elementCountOf
    split
    · omega
    · rfl
  constructor
  · intro hlen
    simp [writeable_value, writeable_value_rest, hbp, hecOf, hec, hlen]
  · intro hlen
    have hnl : ¬ vs.length < t.element_count := by omega
    by_cases hstrict : t.element_count < vs.length
    · simp [writeable_value, writeable_value_rest, hbp, hecOf, hec, hnl, hstrict]
    · have htake : vs.take t.element_count = vs := by
        have hEq : vs.length = t.element_count := by omega
        rw [← hEq, List.take_length]
      simp [writeable_value, writeable_value_rest, hbp, hecOf, hec, hnl, hstrict, htake]

/-- Claim C7 witness: writing two values to a three-word address fails with
the insufficient-data request error. -/
theorem c7_multi_element_write_witness :
    writeable_value tagN70x3 (PyValue.list [1, 2]) =
      Except.error (PyErr.requestError
        ("Insufficient data for requested elements, expected "
          ++ toString (3 : Nat) ++ " and got " ++ toString (2 : Nat))) :=
  (c7_multi_element_write tagN70x3 [1, 2] (by decide) (by decide)).1 (by decide)

/-- `math.pow(2, k)` for a natural bit position is the natural power. -/
theorem math_pow2_natCast (k : Nat) : math_pow2 (k : Int) = ((2 ^ k : Nat) : ℚ) := by
  unfold math_pow2
  rw [if_pos (by exact_mod_cast Nat.zero_le k), Int.toNat_natCast, Rat.mkRat_one]
  push_cast
  ring

/-- Packing the mask float `2.0 ^ k` gives the two little-endian bytes of
`2 ^ k` for every in-range bit position. -/
theorem Pack_uint_q_pow2 (k : Nat) (hk : k ≤ 15) :
    Pack_uint_q (math_pow2 (k : Int)) = some (le2 (2 ^ k)) := by
  rw [math_pow2_natCast]
  have hlt : (2 : Nat) ^ k < 65536 :=
    lt_of_le_of_lt (Nat.pow_le_pow_right (by norm_num) hk) (by norm_num)
  have htn : ((2 : ℤ) ^ k).toNat = 2 ^ k := by
    rw [show ((2 : ℤ) ^ k) = ((2 ^ k : ℕ) : ℤ) by push_cast; ring]
    exact Int.toNat_natCast _
  simp [Pack_uint_q, Rat.num_natCast, Rat.den_natCast, htn]
  exact_mod_cast hlt

/-- Claim C3 (corrected): a single-element bit write emits a four-byte
mask-and-value pair — the mask half is always the two little-endian bytes
of `2 ^ k`, and the value half is `2 ^ k` exactly when the value compares
greater than zero (not Python truthiness) and zero otherwise — while a
timer/counter `PRE`/`ACC` write emits `0xFFFF` followed by the packed
scalar. -/
theorem c3_bit_write_encoding (t : TagDesc) (v : Int) (k : Nat)
    (haf : t.address_field = 3) (hec : t.element_count ≤ 1)
    (hbp : bitPositionOf t = some (k : Int)) (hk : k ≤ 15)
    (hft : t.file_type ∈ knownFileTypes) :
    (t.file_type ≠ "T" ∧ t.file_type ≠ "C" →
      writeable_value t (PyValue.int v) =
        Except.ok (le2 (2 ^ k) ++ if 0 < v then le2 (2 ^ k) else [0, 0])) ∧
    ((t.file_type = "T" ∨ t.file_type = "C") →
      (k = PCCC_CT ("PRE") ∨ k = PCCC_CT ("ACC")) →
      ∀ bs, pccc_pack t.file_type (PyValue.int v) = some bs →
        writeable_value t (PyValue.int v) = Except.ok (255 :: 255 :: bs)) := by
  have hec1 : ¬ 1 < elementCountOf t := by
    unfold elementCountOf
    split <;> omega
  have h0 : Pack_uint_q 0 = some [0, 0] := by decide
  constructor
  · rintro ⟨hT, hC⟩
    by_cases hv : 0 < v <;>
      simp [writeable_value, writeable_value_rest, hbp, hec1, hft, haf, hT, hC,
            pyGtZero, hv, Pack_uint_q_pow2 k hk, h0]
  · rintro hTC hPA bs hbs
    rcases hPA with h2 | h2 <;> subst h2 <;> rcases hTC with h | h <;>
      rw [h] at hbs <;>
      simp [writeable_value, writeable_value_rest, hbp, hec1, haf, h, hbs,
            knownFileTypes]

/-- Claim C3 witness: writing 1 to bit 2 of `B3:0` emits mask `0x0004` and
value `0x0004`, little-endian. -/
theorem c3_bit_write_encoding_witness :
    writeable_value tagB302 (PyValue.int 1) = Except.ok [4, 0, 4, 0] := by
  have h := (c3_bit_write_encoding tagB302 1 2 (by decide) (by decide) (by decide)
      (by decide) (by decide)).1 (by decide)
  exact h.trans (by decide)

/-- Claim C3 counterexample: `-1` is truthy in Python, yet the source's
`value > 0` test emits the zero value half, so the claimed truthiness rule
fails at value `-1`. -/
theorem c3_counterexample :
    writeable_value tagB302 (PyValue.int (-1)) = Except.ok [4, 0, 0, 0] ∧
    ((-1 : Int) ≠ 0) ∧ [4, 0, 0, 0] ≠ [4, 0] ++ [4, 0] := by
  refine ⟨by decide, by decide, by decide⟩

/-- Claim C9: `parse_tag` searches anywhere in the string: `XN7:0Y` is not
itself an address, yet the embedded `N7:0` parses, and the echoed tag is
the matched substring. -/
theorem c9_substring_match :
    parse_tag ("XN7:0Y") = ParseResult.ok
      { file_type := "N", file_number := PyScalar.str ("7"),
        element_number := PyScalar.str ("0"), sub_element := none,
        address_field := 2, element_count := 1, tag := "N7:0" }
    ∧ ("N7:0" : String) ≠ "XN7:0Y" := by
  constructor
  · decide
  · decide

/-- Claim C10: a value that is already `bytes` is returned unchanged before
any element-count check, bit encoding, or packing runs. -/
theorem c10_bytes_passthrough (t : TagDesc) (bs : List Nat) :
    writeable_value t (PyValue.bytes bs) = Except.ok bs := rfl
